import Mathlib

/-!
Verification of the spaced-repetition scheduling engine of the chesscoach
web trainer.  The definitions below are a shallow embedding of the
JavaScript source: `SpacedRepetitionTrainer` (constants
`REPETITION_INTERVALS`, `MAX_ATTEMPTS`, and the functions
`getFilteredPositions`, `initializeSpacedRepetition`,
`calculateSpacedRepetitionQueue`, `calculateMasteryLevel`,
`calculateDaysSince`, `calculatePriority`, `shuffleArray`,
`handleIncorrectAttempt`) and `ChessboardTrainer` (`getProblemId` and the
problem-id derivations inside `onPieceDrop` and `handlePositionComplete`).
JavaScript numbers appearing in the scheduler are modelled as `Nat`/`Int`;
the special values `Infinity` and `NaN` that `calculateDaysSince` can
produce are modelled explicitly by the `JSDays` type, and the JavaScript
comparison semantics for them (`NaN >= x` is false, `Infinity >= x` is
true) by `JSDays.ge` / `JSDays.gt`.  `Math.random` is modelled by an
injectable source `rand : Nat -> Nat`, reduced modulo the permitted range.
-/

namespace ChessCoach

/-- A training position, restricted to the fields the scheduler reads:
`fen`, `player_move`, `best_move` and `error_type`. -/
structure Position where
  fen : String
  player_move : String
  best_move : String
  error_type : String
deriving DecidableEq, Repr

/-- The `last_attempt` field of a performance record as the scheduler sees
it: `missing` models `null`/`undefined`/empty string (falsy in JS),
`invalid` models a non-empty string that `new Date(...)` cannot parse
(yielding an Invalid Date, whose arithmetic is `NaN`), and `parsed ms`
models a successfully parsed instant at `ms` milliseconds since the
epoch. -/
inductive Timestamp where
  | missing
  | invalid
  | parsed (ms : Int)
deriving DecidableEq, Repr

/-- A performance record (`problemStat` in the source).  `attempts = 0`
models both a literal `0` and a missing `attempts` field, which behave
identically through the source's `problemStat.attempts || 1` and
`problemStat.attempts || 0` defaults. -/
structure ProblemStat where
  solved : Bool
  attempts : Nat
  first_try_solved : Bool
  last_attempt : Timestamp
deriving DecidableEq, Repr

/-- The performance store snapshot: `problemStats` keyed by problem id. -/
abbrev Stats := String → Option ProblemStat

/-- The value of `calculateDaysSince`: a JavaScript number that is either
`NaN`, `Infinity`, or a non-negative whole number of days. -/
inductive JSDays where
  | nan
  | inf
  | fin (d : Nat)
deriving DecidableEq, Repr

/-- JavaScript `days >= n` for a `JSDays` value: `NaN >= n` is false and
`Infinity >= n` is true. -/
def JSDays.ge (days : JSDays) (n : Nat) : Bool :=
  match days with
  | .nan => false
  | .inf => true
  | .fin d => n ≤ d

/-- JavaScript `days > n` for a `JSDays` value. -/
def JSDays.gt (days : JSDays) (n : Nat) : Bool :=
  match days with
  | .nan => false
  | .inf => true
  | .fin d => n < d

/-- A priority score: either `Infinity` (when `daysSinceLastSeen` is
`Infinity` the additions keep the score infinite) or a finite integer. -/
inductive JSPriority where
  | inf
  | fin (p : Int)
deriving DecidableEq, Repr

/-- `MAX_ATTEMPTS = 3`: auto-reveal after 3 failed attempts. -/
def MAX_ATTEMPTS : Nat := 3

/-- `maxNewProblems = 10` in `calculateSpacedRepetitionQueue`. -/
def maxNewProblems : Nat := 10

/-- `maxReviewProblems = 50` in `calculateSpacedRepetitionQueue`. -/
def maxReviewProblems : Nat := 50

/-- The `REPETITION_INTERVALS` object: a lookup from mastery level to
minimum days until due; `none` models an absent key (JS `undefined`). -/
def REPETITION_INTERVALS (level : Nat) : Option Nat :=
  if level = 0 then some 0
  else if level = 1 then some 1
  else if level = 2 then some 3
  else if level = 3 then some 7
  else if level = 4 then some 14
  else if level = 5 then some 30
  else if level = 6 then some 90
  else if level = 7 then some 180
  else if level = 8 then some 365
  else none

/-- `REPETITION_INTERVALS[masteryLevel] || 0` as used by the classifier:
an absent key (and the falsy value at key 0) falls back to 0. -/
def intervalDays (level : Nat) : Nat :=
  (REPETITION_INTERVALS level).getD 0

/-- `calculateMasteryLevel`: 0 when not solved; otherwise
`attempts || 1` (zero or missing attempts default to 1), then
`min 3 attempts` for first-try solves and `min 2 (attempts / 2)`
otherwise. -/
def calculateMasteryLevel (problemStat : ProblemStat) : Nat :=
  if problemStat.solved = false then 0
  else if problemStat.first_try_solved = true then
    min 3 (if problemStat.attempts = 0 then 1 else problemStat.attempts)
  else
    min 2 ((if problemStat.attempts = 0 then 1 else problemStat.attempts) / 2)

/-- Milliseconds per day, the divisor `1000 * 60 * 60 * 24` in
`calculateDaysSince`. -/
def msPerDay : Nat := 1000 * 60 * 60 * 24

/-- `calculateDaysSince`: a falsy timestamp yields `Infinity`; an
unparseable one yields `NaN` (the `new Date(...)` constructor does not
throw, so the `catch` branch is dead and `Math.abs(now - InvalidDate)` is
`NaN`); a parsed one yields `Math.floor(Math.abs(now - t) / msPerDay)` —
note the absolute value, which turns a future timestamp into a positive
finite day count. -/
def calculateDaysSince (now : Int) (lastAttempt : Timestamp) : JSDays :=
  match lastAttempt with
  | .missing => .inf
  | .invalid => .nan
  | .parsed t => .fin ((now - t).natAbs / msPerDay)

/-- `calculatePriority`: starts at 100, adds the overdue bonus
`(days - interval) * 10` when `days > interval`, adds 50 for unsolved
records, adds `attempts * 5`, subtracts `masteryLevel * 20`.  When the
day count is `Infinity` the JavaScript additions make the score
`Infinity`; when it is `NaN` the `>` guard is false and the score stays
finite. -/
def calculatePriority (problemStat : ProblemStat) (daysSinceLastSeen : JSDays)
    (intervalD : Nat) : JSPriority :=
  match daysSinceLastSeen with
  | .inf => .inf
  | .nan => .fin (100
      + (if problemStat.solved = false then 50 else 0)
      + (problemStat.attempts : Int) * 5
      - (calculateMasteryLevel problemStat : Int) * 20)
  | .fin d => .fin (100
      + (if intervalD < d then ((d : Int) - (intervalD : Int)) * 10 else 0)
      + (if problemStat.solved = false then 50 else 0)
      + (problemStat.attempts : Int) * 5
      - (calculateMasteryLevel problemStat : Int) * 20)

/-- `getProblemId` (ChessboardTrainer) and the inline template
`` `${position.fen}_${position.player_move}_${i}` `` of the queue
builder: the problem id string. -/
def getProblemId (position : Position) (index : Nat) : String :=
  position.fen ++ "_" ++ position.player_move ++ "_" ++ toString index

/-- The three classification buckets of `calculateSpacedRepetitionQueue`. -/
inductive Bucket where
  | new
  | due
  | notDue
deriving DecidableEq, Repr

/-- An entry of the `newProblems` / `dueProblems` / `notDueProblems`
arrays: position, corpus index, priority, derived mastery and day count
(absent for new problems), and the `isNew` flag. -/
structure QueueItem where
  position : Position
  index : Nat
  priority : JSPriority
  masteryLevel : Option Nat
  daysSinceLastSeen : Option JSDays
  isNew : Bool
deriving DecidableEq, Repr

/-- The loop body of `calculateSpacedRepetitionQueue` for one position at
index `i` of the (filtered) corpus: no record means New; otherwise Due
exactly when `daysSinceLastSeen >= intervalDays || masteryLevel === 0`
(JS comparison semantics), else Not-Due. -/
def classifyOne (now : Int) (stats : Stats) (position : Position) (i : Nat) :
    Bucket × QueueItem :=
  match stats (getProblemId position i) with
  | none => (Bucket.new, ⟨position, i, JSPriority.fin 0, none, none, true⟩)
  | some problemStat =>
    let masteryLevel := calculateMasteryLevel problemStat
    let daysSinceLastSeen := calculateDaysSince now problemStat.last_attempt
    let intervalD := intervalDays masteryLevel
    if daysSinceLastSeen.ge intervalD || masteryLevel == 0 then
      (Bucket.due, ⟨position, i, calculatePriority problemStat daysSinceLastSeen intervalD,
        some masteryLevel, some daysSinceLastSeen, false⟩)
    else
      (Bucket.notDue, ⟨position, i, JSPriority.fin (-1),
        some masteryLevel, some daysSinceLastSeen, false⟩)

/-- The bucket chosen for one position. -/
def classifyBucket (now : Int) (stats : Stats) (position : Position) (i : Nat) : Bucket :=
  (classifyOne now stats position i).1

/-- The queue item built for one position. -/
def classifyItem (now : Int) (stats : Stats) (position : Position) (i : Nat) : QueueItem :=
  (classifyOne now stats position i).2

/-- The three arrays filled by the classification loop, in corpus order. -/
structure Buckets where
  newProblems : List QueueItem
  dueProblems : List QueueItem
  notDueProblems : List QueueItem
deriving Repr

/-- The classification loop of `calculateSpacedRepetitionQueue` over the
whole (filtered) corpus, pushing each item into the bucket chosen by
`classifyOne`, preserving corpus order inside each bucket. -/
def classifyAll (now : Int) (stats : Stats) (positions : List Position) : Buckets :=
  { newProblems := positions.enum.filterMap fun p =>
      if classifyBucket now stats p.2 p.1 = Bucket.new
      then some (classifyItem now stats p.2 p.1) else none,
    dueProblems := positions.enum.filterMap fun p =>
      if classifyBucket now stats p.2 p.1 = Bucket.due
      then some (classifyItem now stats p.2 p.1) else none,
    notDueProblems := positions.enum.filterMap fun p =>
      if classifyBucket now stats p.2 p.1 = Bucket.notDue
      then some (classifyItem now stats p.2 p.1) else none }

/-- The comparator `(a, b) => b.priority - a.priority` of
`dueProblems.sort(...)` as a Boolean "may precede": `a` may precede `b`
when `a`'s priority is at least `b`'s (two `Infinity` scores compare as
equal and keep their order). -/
def priorityDesc (a b : QueueItem) : Bool :=
  match a.priority, b.priority with
  | JSPriority.inf, _ => true
  | JSPriority.fin _, JSPriority.inf => false
  | JSPriority.fin x, JSPriority.fin y => y ≤ x

/-- `dueProblems.sort((a, b) => b.priority - a.priority)`: sort the Due
bucket by descending priority (the claims do not depend on which
comparison sort the runtime uses, only that it permutes the bucket
consistently with the comparator). -/
def sortDueProblems (dueProblems : List QueueItem) : List QueueItem :=
  dueProblems.insertionSort fun a b => priorityDesc a b = true

/-- One swap `[shuffled[i], shuffled[j]] = [shuffled[j], shuffled[i]]` of
the Fisher–Yates loop. -/
def swapIdx (l : List α) (i j : Nat) : List α :=
  match l.get? i, l.get? j with
  | some a, some b => (l.set i b).set j a
  | _, _ => l

/-- The Fisher–Yates loop of `shuffleArray` from index `i` down to 1,
with `j = Math.floor(Math.random() * (i + 1))` modelled as
`rand i % (i + 1)`. -/
def shuffleSteps (rand : Nat → Nat) : Nat → List α → List α
  | 0, l => l
  | i + 1, l => shuffleSteps rand i (swapIdx l (i + 1) (rand (i + 1) % (i + 2)))

/-- `shuffleArray`: unbiased Fisher–Yates shuffle over a copy of the
array, driven by the injectable random source `rand`. -/
def shuffleArray (rand : Nat → Nat) (l : List α) : List α :=
  shuffleSteps rand (l.length - 1) l

/-- The output of `calculateSpacedRepetitionQueue`: the session queue plus
the queue metrics `{due, new, total}` reported via `setQueueInfo`. -/
structure QueueResult where
  queue : List Position
  due : Nat
  new : Nat
  total : Nat
deriving Repr

/-- `calculateSpacedRepetitionQueue`: classify, sort the Due bucket by
descending priority, take up to `maxNewProblems` new and
`maxReviewProblems` due items, concatenate due-then-new, shuffle, and
return the positions together with the pre-cap metrics. -/
def calculateSpacedRepetitionQueue (now : Int) (rand : Nat → Nat)
    (allPositions : List Position) (currentStats : Stats) : QueueResult :=
  let b := classifyAll now currentStats allPositions
  let sortedDue := sortDueProblems b.dueProblems
  let selectedNew := b.newProblems.take maxNewProblems
  let selectedDue := sortedDue.take maxReviewProblems
  let allSelected := selectedDue ++ selectedNew
  let shuffled := shuffleArray rand allSelected
  { queue := shuffled.map fun it => it.position,
    due := b.dueProblems.length,
    new := b.newProblems.length,
    total := allPositions.length }

/-- ASCII lowering of one character, the fragment of
`String.prototype.toLowerCase` exercised by the error-type strings. -/
def lowerChar (c : Char) : Char :=
  if 65 ≤ c.toNat ∧ c.toNat ≤ 90 then Char.ofNat (c.toNat + 32) else c

/-- `s.toLowerCase()` over the character data. -/
def lowerString (s : String) : String :=
  String.mk (s.data.map lowerChar)

/-- `getFilteredPositions`: the whole corpus for the `'all'` filter,
otherwise the positions whose truthy `error_type` lowercases to
`'blunder'` (for the `'blunder'` filter) or `'mistake'` (any other
filter value). -/
def getFilteredPositions (errorTypeFilter : String) (positions : List Position) :
    List Position :=
  if errorTypeFilter = "all" then positions
  else positions.filter fun pos =>
    pos.error_type ≠ "" ∧
      lowerString pos.error_type
        = (if errorTypeFilter = "blunder" then "blunder" else "mistake")

/-- `initializeSpacedRepetition`, reduced to its data flow: filter the
corpus; when the backend is unavailable present the first 20 filtered
positions unchanged (no classification); otherwise build the
spaced-repetition queue from the backend statistics. -/
def initializeSpacedRepetition (backendAvailable : Bool) (now : Int)
    (rand : Nat → Nat) (errorTypeFilter : String) (positions : List Position)
    (stats : Stats) : List Position :=
  let filteredPositions := getFilteredPositions errorTypeFilter positions
  if backendAvailable = false then filteredPositions.take 20
  else (calculateSpacedRepetitionQueue now rand filteredPositions stats).queue

/-- The per-exposure state of the attempt state machine:
`attempts[currentIndex]`, the `autoRevealTriggered` flag, the
`solved[currentIndex]` flag (setting it surfaces the solution), and the
completion events `(wasCorrect, wasAutoRevealed)` emitted via
`handlePositionComplete`. -/
structure ExposureState where
  attemptsThisExposure : Nat
  autoRevealTriggered : Bool
  solved : Bool
  completions : List (Bool × Bool)
deriving DecidableEq, Repr

/-- The state at the start of an exposure. -/
def initialExposure : ExposureState :=
  ⟨0, false, false, []⟩

/-- `handleIncorrectAttempt`: increment the attempt count; once it
reaches `MAX_ATTEMPTS` and auto-reveal has not fired yet, set
`autoRevealTriggered`, mark the position solved (which surfaces the
solution), and complete the exposure with
`handlePositionComplete(false, true)`. -/
def handleIncorrectAttempt (s : ExposureState) : ExposureState :=
  let a := s.attemptsThisExposure + 1
  if MAX_ATTEMPTS ≤ a ∧ s.autoRevealTriggered = false then
    { attemptsThisExposure := a, autoRevealTriggered := true, solved := true,
      completions := s.completions ++ [(false, true)] }
  else
    { s with attemptsThisExposure := a }

/-- The `showSolutionOverride` prop wired to `autoRevealTriggered`: the
best move is displayed exactly when it is true. -/
def bestMoveSurfaced (s : ExposureState) : Bool :=
  s.autoRevealTriggered

/-- The problem id used by `onPieceDrop` when recording a raw attempt:
`getProblemId(pos, current)` with `current` the position's index in the
session queue. -/
def attemptProblemId (queue : List Position) (current : Nat) : Option String :=
  (queue.get? current).map fun pos => getProblemId pos current

/-- The problem id used by `handlePositionComplete` when recording a
completed exposure:
`` `${position.fen}_${position.player_move}_${positions.indexOf(position)}` ``
with `positions` the full corpus. -/
def completeProblemId (positions : List Position) (position : Position) : String :=
  getProblemId position (positions.indexOf position)

/-- The Mastery Evaluator rule as the specification words it: 0 when not
solved, else `min(3, attempts)` for first-try solves, else
`min(2, floor(attempts / 2))` — with no defaulting of `attempts`.
Stated for comparison with `calculateMasteryLevel`, the source
translation. -/
def specMasteryLevel (problemStat : ProblemStat) : Nat :=
  if problemStat.solved = false then 0
  else if problemStat.first_try_solved = true then min 3 problemStat.attempts
  else min 2 (problemStat.attempts / 2)

/-- The Priority Ranker score as the specification words it: 100, plus
`(days - interval) * 10` if positive, plus 50 when `solved` is false,
plus `attempts * 5`, minus `masteryLevel * 20`.  Stated for comparison
with `calculatePriority`, the source translation. -/
def specPriority (problemStat : ProblemStat) (d : Nat) (intervalD : Nat)
    (masteryLevel : Nat) : Int :=
  100
    + (if intervalD < d then ((d : Int) - (intervalD : Int)) * 10 else 0)
    + (if problemStat.solved = false then 50 else 0)
    + (problemStat.attempts : Int) * 5
    - (masteryLevel : Int) * 20

/-- A first concrete position used by witnesses. -/
def posMistake : Position :=
  ⟨"F0", "a2a3", "b1c3", "Mistake"⟩

/-- A second concrete position used by witnesses. -/
def posBlunder : Position :=
  ⟨"F1", "g7g5", "e2e4", "Blunder"⟩

/-- An empty performance store. -/
def emptyStats : Stats :=
  fun _ => none

/-- A deterministic random source that always answers 0 (so the
Fisher–Yates pass reverses a two-element list). -/
def rand0 : Nat → Nat :=
  fun _ => 0

/-- The record of the specification's worked scenario:
`{attempts: 5, firstTrySolved: false, solved: true, lastAttemptTimestamp:
10 days ago}`. -/
def scenarioStat : ProblemStat :=
  ⟨true, 5, false, Timestamp.parsed 0⟩

/-- The clock instant of the worked scenario, 10 days after
`scenarioStat`'s last attempt. -/
def scenarioNow : Int :=
  (10 * msPerDay : Nat)

/-- A store holding the worked scenario's record for `posMistake` at
corpus index 0. -/
def scenarioStats : Stats :=
  fun id => if id = getProblemId posMistake 0 then some scenarioStat else none

/-- A solved first-try record (mastery level 1, interval 1 day) whose
last-attempt timestamp is unparseable. -/
def c6Stat : ProblemStat :=
  ⟨true, 1, true, Timestamp.invalid⟩

/-- A store holding `c6Stat` for `posBlunder` at corpus index 0. -/
def c6Stats : Stats :=
  fun id => if id = getProblemId posBlunder 0 then some c6Stat else none

/-- A record with `solved = true`, `firstTrySolved = true` and
`attempts = 0` (equivalently a missing `attempts` field). -/
def zeroAttemptStat : ProblemStat :=
  ⟨true, 0, true, Timestamp.missing⟩

/-! ## Helper lemmas -/

/-- A Fisher–Yates swap preserves length. -/
theorem length_swapIdx (l : List α) (i j : Nat) :
    (swapIdx l i j).length = l.length := by
  unfold swapIdx
  rcases h1 : l.get? i with _ | a <;> rcases h2 : l.get? j with _ | b <;>
    simp [List.length_set]

/-- Every element of a swapped list was in the original list. -/
theorem mem_of_mem_swapIdx {l : List α} {i j : Nat} {x : α}
    (h : x ∈ swapIdx l i j) : x ∈ l := by
  unfold swapIdx at h
  rcases h1 : l.get? i with _ | a <;> rcases h2 : l.get? j with _ | b <;>
      rw [h1, h2] at h
  · exact h
  · exact h
  · exact h
  · rcases List.mem_or_eq_of_mem_set h with h' | rfl
    · rcases List.mem_or_eq_of_mem_set h' with h'' | rfl
      · exact h''
      · exact List.get?_mem h2
    · exact List.get?_mem h1

/-- The Fisher–Yates loop preserves length. -/
theorem length_shuffleSteps (rand : Nat → Nat) (n : Nat) (l : List α) :
    (shuffleSteps rand n l).length = l.length := by
  induction n generalizing l with
  | zero => rfl
  | succ i ih => rw [shuffleSteps, ih, length_swapIdx]

/-- Every element of the shuffled loop output was in the input. -/
theorem mem_of_mem_shuffleSteps {rand : Nat → Nat} {n : Nat} {l : List α} {x : α}
    (h : x ∈ shuffleSteps rand n l) : x ∈ l := by
  induction n generalizing l with
  | zero => exact h
  | succ i ih => exact mem_of_mem_swapIdx (ih h)

/-- `shuffleArray` preserves length. -/
theorem length_shuffleArray (rand : Nat → Nat) (l : List α) :
    (shuffleArray rand l).length = l.length :=
  length_shuffleSteps rand (l.length - 1) l

/-- Every element of `shuffleArray`'s output was in its input. -/
theorem mem_of_mem_shuffleArray {rand : Nat → Nat} {l : List α} {x : α}
    (h : x ∈ shuffleArray rand l) : x ∈ l :=
  mem_of_mem_shuffleSteps h

/-- Sorting the Due bucket permutes it. -/
theorem sortDueProblems_perm (l : List QueueItem) :
    (sortDueProblems l).Perm l :=
  List.perm_insertionSort _ l

/-- The state of the attempt machine after `n` incorrect submissions
from the start of an exposure. -/
theorem exposure_iterate (n : Nat) :
    handleIncorrectAttempt^[n] initialExposure
      = ⟨n, decide (MAX_ATTEMPTS ≤ n), decide (MAX_ATTEMPTS ≤ n),
          if MAX_ATTEMPTS ≤ n then [(false, true)] else []⟩ := by
  induction n with
  | zero => rfl
  | succ n ih =>
    rw [Function.iterate_succ_apply', ih]
    unfold handleIncorrectAttempt
    by_cases h3 : MAX_ATTEMPTS ≤ n
    · have h4 : MAX_ATTEMPTS ≤ n + 1 := Nat.le_succ_of_le h3
      simp [h3, h4]
    · by_cases h4 : MAX_ATTEMPTS ≤ n + 1
      · simp [h3, h4]
      · simp [h3, h4]

/-! ## Claims -/

/-- C1: every position of the active (filtered) corpus is bucketed New
exactly when no performance record exists for its problem id; with a
record it is bucketed Due exactly when `daysSinceLastSeen >= intervalDays`
(JavaScript comparison) or the mastery level is 0, and Not-Due otherwise;
every record with `solved = false` is classified Due regardless of its
last-attempt timestamp; and the item lands in the corresponding bucket
array of the classification. -/
theorem c1_dueness_classification (now : Int) (stats : Stats)
    (positions : List Position) (i : Nat) (position : Position)
    (h : positions.get? i = some position) :
    (classifyBucket now stats position i = Bucket.new ↔
        stats (getProblemId position i) = none)
    ∧ (∀ stat, stats (getProblemId position i) = some stat →
        (classifyBucket now stats position i = Bucket.due ↔
          ((calculateDaysSince now stat.last_attempt).ge
              (intervalDays (calculateMasteryLevel stat)) = true
            ∨ calculateMasteryLevel stat = 0)))
    ∧ (∀ stat, stats (getProblemId position i) = some stat →
        (classifyBucket now stats position i = Bucket.notDue ↔
          ¬((calculateDaysSince now stat.last_attempt).ge
              (intervalDays (calculateMasteryLevel stat)) = true
            ∨ calculateMasteryLevel stat = 0)))
    ∧ (∀ stat, stats (getProblemId position i) = some stat →
        stat.solved = false → classifyBucket now stats position i = Bucket.due)
    ∧ (classifyBucket now stats position i = Bucket.new →
        classifyItem now stats position i
          ∈ (classifyAll now stats positions).newProblems)
    ∧ (classifyBucket now stats position i = Bucket.due →
        classifyItem now stats position i
          ∈ (classifyAll now stats positions).dueProblems)
    ∧ (classifyBucket now stats position i = Bucket.notDue →
        classifyItem now stats position i
          ∈ (classifyAll now stats positions).notDueProblems) := by
  have hmem : (i, position) ∈ positions.enum := List.mk_mem_enum_iff_get?.mpr h
  refine ⟨?_, ?_, ?_, ?_, ?_, ?_, ?_⟩
  · cases hst : stats (getProblemId position i) with
    | none => simp [classifyBucket, classifyOne, hst]
    | some stat =>
      simp only [classifyBucket, classifyOne, hst]
      split <;> simp
  · intro stat hstat
    simp only [classifyBucket, classifyOne, hstat]
    cases hb : (calculateDaysSince now stat.last_attempt).ge
        (intervalDays (calculateMasteryLevel stat)) || (calculateMasteryLevel stat == 0) with
    | false =>
      have hb' : ¬((calculateDaysSince now stat.last_attempt).ge
          (intervalDays (calculateMasteryLevel stat)) = true
            ∨ calculateMasteryLevel stat = 0) := by
        simpa [Bool.or_eq_true, beq_iff_eq] using hb
      simp [hb, hb']
    | true =>
      have hb' : (calculateDaysSince now stat.last_attempt).ge
          (intervalDays (calculateMasteryLevel stat)) = true
            ∨ calculateMasteryLevel stat = 0 := by
        simpa [Bool.or_eq_true, beq_iff_eq] using hb
      simp [hb, hb']
  · intro stat hstat
    simp only [classifyBucket, classifyOne, hstat]
    cases hb : (calculateDaysSince now stat.last_attempt).ge
        (intervalDays (calculateMasteryLevel stat)) || (calculateMasteryLevel stat == 0) with
    | false =>
      have hb' : ¬((calculateDaysSince now stat.last_attempt).ge
          (intervalDays (calculateMasteryLevel stat)) = true
            ∨ calculateMasteryLevel stat = 0) := by
        simpa [Bool.or_eq_true, beq_iff_eq] using hb
      simp [hb, hb']
    | true =>
      have hb' : (calculateDaysSince now stat.last_attempt).ge
          (intervalDays (calculateMasteryLevel stat)) = true
            ∨ calculateMasteryLevel stat = 0 := by
        simpa [Bool.or_eq_true, beq_iff_eq] using hb
      simp [hb, hb']
  · intro stat hstat hsolved
    have hm : calculateMasteryLevel stat = 0 := by
      simp [calculateMasteryLevel, hsolved]
    simp [classifyBucket, classifyOne, hstat, hm]
  · intro hb
    refine List.mem_filterMap.mpr ⟨(i, position), hmem, ?_⟩
    simp [hb]
  · intro hb
    refine List.mem_filterMap.mpr ⟨(i, position), hmem, ?_⟩
    simp [hb]
  · intro hb
    refine List.mem_filterMap.mpr ⟨(i, position), hmem, ?_⟩
    simp [hb]

/-- Witness for C1 on a one-position corpus carrying the worked
scenario's record: the record exists, the Due characterization holds,
and the item lands in the Due bucket. -/
theorem c1_dueness_classification_witness :
    ([posMistake] : List Position).get? 0 = some posMistake
    ∧ scenarioStats (getProblemId posMistake 0) = some scenarioStat
    ∧ (classifyBucket scenarioNow scenarioStats posMistake 0 = Bucket.due ↔
        ((calculateDaysSince scenarioNow scenarioStat.last_attempt).ge
            (intervalDays (calculateMasteryLevel scenarioStat)) = true
          ∨ calculateMasteryLevel scenarioStat = 0))
    ∧ classifyItem scenarioNow scenarioStats posMistake 0
        ∈ (classifyAll scenarioNow scenarioStats [posMistake]).dueProblems := by
  have h := c1_dueness_classification scenarioNow scenarioStats [posMistake] 0 posMistake rfl
  exact ⟨rfl, by decide, h.2.1 scenarioStat (by decide), h.2.2.2.2.2.1 (by decide)⟩

/-- C2 (amended): for every performance record with at least one recorded
attempt, the Mastery Evaluator computes exactly the specification's rule
(0 when unsolved, `min(3, attempts)` on first-try solves, else
`min(2, floor(attempts / 2))`); the source additionally defaults a zero
or missing `attempts` to 1, which `c2_mastery_counterexample` shows
diverges from the un-defaulted rule. -/
theorem c2_mastery_evaluator (stat : ProblemStat) (h : 1 ≤ stat.attempts) :
    calculateMasteryLevel stat = specMasteryLevel stat := by
  have ha : ¬stat.attempts = 0 := by omega
  unfold calculateMasteryLevel specMasteryLevel
  simp [ha]

/-- Witness for C2's amended theorem at the worked scenario's record. -/
theorem c2_mastery_evaluator_witness :
    1 ≤ scenarioStat.attempts
    ∧ calculateMasteryLevel scenarioStat = specMasteryLevel scenarioStat :=
  ⟨by decide, c2_mastery_evaluator scenarioStat (by decide)⟩

/-- Counterexample for C2 as stated: on a solved first-try record with
`attempts = 0` the source returns `min(3, attempts || 1) = 1`, while the
claim's formula `min(3, attempts)` gives 0. -/
theorem c2_mastery_counterexample :
    calculateMasteryLevel zeroAttemptStat = 1
    ∧ specMasteryLevel zeroAttemptStat = 0
    ∧ calculateMasteryLevel zeroAttemptStat ≠ specMasteryLevel zeroAttemptStat := by
  decide

/-- C3: for every Due item with a finite day count, the priority equals
the specification's formula (100, plus the overdue bonus when positive,
plus 50 for unsolved, plus `attempts * 5`, minus `masteryLevel * 20`);
and on the worked scenario record the mastery level is 2, the interval 3
days, the item Due, and the priority 155. -/
theorem c3_priority_formula :
    (∀ (stat : ProblemStat) (d : Nat),
        (intervalDays (calculateMasteryLevel stat) ≤ d
            ∨ calculateMasteryLevel stat = 0) →
        calculatePriority stat (JSDays.fin d)
            (intervalDays (calculateMasteryLevel stat))
          = JSPriority.fin (specPriority stat d
              (intervalDays (calculateMasteryLevel stat))
              (calculateMasteryLevel stat)))
    ∧ calculateMasteryLevel scenarioStat = 2
    ∧ intervalDays (calculateMasteryLevel scenarioStat) = 3
    ∧ calculateDaysSince scenarioNow scenarioStat.last_attempt = JSDays.fin 10
    ∧ (JSDays.fin 10).ge (intervalDays (calculateMasteryLevel scenarioStat)) = true
    ∧ calculatePriority scenarioStat (JSDays.fin 10)
        (intervalDays (calculateMasteryLevel scenarioStat)) = JSPriority.fin 155 := by
  refine ⟨?_, by decide, by decide, by decide, by decide, by decide⟩
  intro stat d _
  rfl

/-- Witness for C3 at the worked scenario: the Due hypothesis holds at
day count 10 and the formula applies there. -/
theorem c3_priority_formula_witness :
    (intervalDays (calculateMasteryLevel scenarioStat) ≤ 10
        ∨ calculateMasteryLevel scenarioStat = 0)
    ∧ calculatePriority scenarioStat (JSDays.fin 10)
        (intervalDays (calculateMasteryLevel scenarioStat))
      = JSPriority.fin (specPriority scenarioStat 10
          (intervalDays (calculateMasteryLevel scenarioStat))
          (calculateMasteryLevel scenarioStat)) :=
  ⟨Or.inl (by decide),
    c3_priority_formula.1 scenarioStat 10 (Or.inl (by decide))⟩

/-- C4: the session queue holds exactly `min 50 |Due|` due items plus
`min 10 |New|` new items, hence never more than 60 in total, and every
position in it is the position of an item classified Due or New — a
Not-Due item never reaches the queue. -/
theorem c4_queue_caps (now : Int) (rand : Nat → Nat) (stats : Stats)
    (positions : List Position) :
    (calculateSpacedRepetitionQueue now rand positions stats).queue.length
        = min maxReviewProblems (classifyAll now stats positions).dueProblems.length
          + min maxNewProblems (classifyAll now stats positions).newProblems.length
    ∧ (calculateSpacedRepetitionQueue now rand positions stats).queue.length
        ≤ maxNewProblems + maxReviewProblems
    ∧ ∀ p ∈ (calculateSpacedRepetitionQueue now rand positions stats).queue,
        ∃ it, (it ∈ (classifyAll now stats positions).dueProblems
            ∨ it ∈ (classifyAll now stats positions).newProblems)
          ∧ it.position = p := by
  have hlen : (calculateSpacedRepetitionQueue now rand positions stats).queue.length
      = min maxReviewProblems (classifyAll now stats positions).dueProblems.length
        + min maxNewProblems (classifyAll now stats positions).newProblems.length := by
    simp only [calculateSpacedRepetitionQueue]
    rw [List.length_map, length_shuffleArray, List.length_append,
      List.length_take, List.length_take,
      (sortDueProblems_perm (classifyAll now stats positions).dueProblems).length_eq]
  refine ⟨hlen, ?_, ?_⟩
  · rw [hlen]
    have h1 := Nat.min_le_left maxReviewProblems
      (classifyAll now stats positions).dueProblems.length
    have h2 := Nat.min_le_left maxNewProblems
      (classifyAll now stats positions).newProblems.length
    simp only [maxNewProblems, maxReviewProblems] at h1 h2 ⊢
    omega
  · intro p hp
    simp only [calculateSpacedRepetitionQueue, List.mem_map] at hp
    obtain ⟨it, hit, rfl⟩ := hp
    have hsel := mem_of_mem_shuffleArray hit
    rcases List.mem_append.mp hsel with hdue | hnew
    · exact ⟨it, Or.inl ((sortDueProblems_perm _).subset (List.take_subset _ _ hdue)),
        rfl⟩
    · exact ⟨it, Or.inr (List.take_subset _ _ hnew), rfl⟩

/-- Witness for C4 on a one-position corpus and empty store: the counts
hold and the single queued position is the position of a New item. -/
theorem c4_queue_caps_witness :
    (calculateSpacedRepetitionQueue 0 rand0 [posMistake] emptyStats).queue.length
        = min maxReviewProblems (classifyAll 0 emptyStats [posMistake]).dueProblems.length
          + min maxNewProblems (classifyAll 0 emptyStats [posMistake]).newProblems.length
    ∧ (calculateSpacedRepetitionQueue 0 rand0 [posMistake] emptyStats).queue.length
        ≤ maxNewProblems + maxReviewProblems
    ∧ ∃ it, (it ∈ (classifyAll 0 emptyStats [posMistake]).dueProblems
          ∨ it ∈ (classifyAll 0 emptyStats [posMistake]).newProblems)
        ∧ it.position = posMistake := by
  have h := c4_queue_caps 0 rand0 emptyStats [posMistake]
  exact ⟨h.1, h.2.1, h.2.2 posMistake (by decide)⟩

/-- C5: after exactly `MAX_ATTEMPTS` (3) consecutive incorrect
submissions within one exposure, `autoRevealTriggered` is set, the best
move is surfaced (the `showSolutionOverride` display condition holds),
the position is marked solved, and exactly one completion event
`(wasCorrect = false, wasAutoRevealed = true)` has fired — and for any
number of incorrect submissions the exposure has fired that single event
exactly when the count reached 3. -/
theorem c5_auto_reveal :
    (handleIncorrectAttempt^[MAX_ATTEMPTS] initialExposure).autoRevealTriggered = true
    ∧ bestMoveSurfaced (handleIncorrectAttempt^[MAX_ATTEMPTS] initialExposure) = true
    ∧ (handleIncorrectAttempt^[MAX_ATTEMPTS] initialExposure).solved = true
    ∧ (handleIncorrectAttempt^[MAX_ATTEMPTS] initialExposure).completions
        = [(false, true)]
    ∧ ∀ n : Nat, (handleIncorrectAttempt^[n] initialExposure).completions
        = if MAX_ATTEMPTS ≤ n then [(false, true)] else [] := by
  refine ⟨?_, ?_, ?_, ?_, ?_⟩
  · rw [exposure_iterate]
    decide
  · rw [bestMoveSurfaced, exposure_iterate]
    decide
  · rw [exposure_iterate]
    decide
  · rw [exposure_iterate]
    simp [MAX_ATTEMPTS]
  · intro n
    rw [exposure_iterate]

/-- C6 (evaluated at the failing input): an unparseable last-attempt
timestamp yields `NaN`, not Infinity; `NaN >= interval` is false, so a
solved record (mastery 1, interval 1 day) with an unparseable timestamp
is classified Not-Due, not Due; and a timestamp 10 days in the future
yields the finite day count 10 via `Math.abs`, not Infinity. -/
theorem c6_clock_anomaly_eval :
    calculateDaysSince 0 Timestamp.invalid = JSDays.nan
    ∧ JSDays.nan.ge (intervalDays (calculateMasteryLevel c6Stat)) = false
    ∧ calculateMasteryLevel c6Stat ≠ 0
    ∧ classifyBucket 0 c6Stats posBlunder 0 = Bucket.notDue
    ∧ calculateDaysSince 0 (Timestamp.parsed ((10 * msPerDay : Nat) : Int))
        = JSDays.fin 10
    ∧ JSDays.fin 10 ≠ JSDays.inf := by
  decide

/-- Counterexample for C7 as stated: a mastery level above 8 looks up to
`undefined || 0 = 0`, not to the nearest defined key's 365. -/
theorem c7_interval_clamp_counterexample :
    intervalDays 9 = 0 ∧ intervalDays 8 = 365 ∧ intervalDays 9 ≠ 365 := by
  decide

/-- C7 (amended): for every mastery level outside the defined keys 0–8,
the lookup finds no entry and falls back to 0 — there is no clamping to
the nearest defined key. -/
theorem c7_interval_fallback (level : Nat) (h : 8 < level) :
    REPETITION_INTERVALS level = none ∧ intervalDays level = 0 := by
  have h0 : level ≠ 0 := by omega
  have h1 : level ≠ 1 := by omega
  have h2 : level ≠ 2 := by omega
  have h3 : level ≠ 3 := by omega
  have h4 : level ≠ 4 := by omega
  have h5 : level ≠ 5 := by omega
  have h6 : level ≠ 6 := by omega
  have h7 : level ≠ 7 := by omega
  have h8 : level ≠ 8 := by omega
  unfold intervalDays REPETITION_INTERVALS
  simp [h0, h1, h2, h3, h4, h5, h6, h7, h8]

/-- Witness for C7's amended theorem at level 9. -/
theorem c7_interval_fallback_witness :
    8 < 9 ∧ REPETITION_INTERVALS 9 = none ∧ intervalDays 9 = 0 :=
  ⟨by decide, (c7_interval_fallback 9 (by decide)).1,
    (c7_interval_fallback 9 (by decide)).2⟩

/-- C8: with the backend unavailable, the presented list is a prefix of
the filtered corpus (corpus order, unranked), holds `min 20 |filtered|`
positions (so at most 20), and is independent of the performance store —
no Due/New/Not-Due distinction is consulted. -/
theorem c8_offline_fallback (now : Int) (rand : Nat → Nat)
    (errorTypeFilter : String) (positions : List Position)
    (stats stats' : Stats) :
    initializeSpacedRepetition false now rand errorTypeFilter positions stats
        <+: getFilteredPositions errorTypeFilter positions
    ∧ (initializeSpacedRepetition false now rand errorTypeFilter positions stats).length
        = min 20 (getFilteredPositions errorTypeFilter positions).length
    ∧ initializeSpacedRepetition false now rand errorTypeFilter positions stats
        = initializeSpacedRepetition false now rand errorTypeFilter positions stats' := by
  unfold initializeSpacedRepetition
  simp only [if_pos rfl]
  exact ⟨List.take_prefix _ _, List.length_take _ _, rfl⟩

/-- C9: every performance record evaluates to a mastery level of at most
3, so the interval actually used never exceeds 7 days and levels 4–8
(intervals 14–365 days) are unreachable evaluator outputs. -/
theorem c9_mastery_bounds (stat : ProblemStat) :
    calculateMasteryLevel stat ≤ 3
    ∧ intervalDays (calculateMasteryLevel stat) ≤ 7 := by
  have h1 : calculateMasteryLevel stat ≤ 3 := by
    unfold calculateMasteryLevel
    split
    · omega
    · split
      · exact Nat.min_le_left 3 _
      · exact Nat.le_trans (Nat.min_le_left 2 _) (by omega)
  refine ⟨h1, ?_⟩
  have h2 : calculateMasteryLevel stat = 0 ∨ calculateMasteryLevel stat = 1
      ∨ calculateMasteryLevel stat = 2 ∨ calculateMasteryLevel stat = 3 := by
    omega
  rcases h2 with h2 | h2 | h2 | h2 <;> rw [h2] <;> decide

/-- C10 (evaluated at a failing input): on the two-position corpus
`[posMistake, posBlunder]` with an empty store and a shuffle that
reverses, the queue is `[posBlunder, posMistake]`; the raw-attempt
recorder keys the position in queue slot 0 by its queue index
(`..._0`), while classification keyed the same position by its corpus
index (`..._1`), and the two ids differ; moreover under the `'blunder'`
filter the filtered corpus keys `posBlunder` by index 0 while the
exposure-completion recorder keys it by its full-array index 1. -/
theorem c10_problem_id_eval :
    initializeSpacedRepetition true 0 rand0 "all" [posMistake, posBlunder] emptyStats
        = [posBlunder, posMistake]
    ∧ attemptProblemId [posBlunder, posMistake] 0 = some (getProblemId posBlunder 0)
    ∧ getProblemId posBlunder 0 ≠ getProblemId posBlunder 1
    ∧ getFilteredPositions "blunder" [posMistake, posBlunder] = [posBlunder]
    ∧ completeProblemId [posMistake, posBlunder] posBlunder = getProblemId posBlunder 1
    ∧ getProblemId posBlunder 0 ≠ completeProblemId [posMistake, posBlunder] posBlunder := by
  decide

end ChessCoach
